import Mathlib

/-!
Shallow embedding of the WatchMouse search-and-filter core
(`src/services/AIService.js`, `src/services/SearchService.js`, and the
match-loading logic of the main `App` component), together with theorems
settling the frozen claims about it.

JavaScript strings are modelled as `List Char` (`JStr`); JS numbers that
carry prices are modelled as `ℚ` (every price in scope is a small decimal,
far below the range where IEEE-754 doubles lose exactness); JS `async`
functions that may throw are modelled as `Except`-valued functions; absent
object fields / `undefined` are modelled as `Option`.
-/

/-- A JavaScript string, modelled as its list of characters. -/
abbrev JStr := List Char

/-- Model of `String.prototype.toLowerCase` (the code only ever lowercases ASCII
letters, on which `Char.toLower` agrees with JS). -/
def jsToLower (s : JStr) : JStr := s.map Char.toLower

/-- Splitting with JS `String.prototype.split` semantics for a
one-character separator generalised to a separator predicate: empty
fields are kept, the empty string yields `[""]`. -/
def splitByPred (p : Char → Bool) : JStr → List JStr
  | [] => [[]]
  | c :: rest =>
    if p c then [] :: splitByPred p rest
    else
      match splitByPred p rest with
      | [] => [[c]]
      | w :: ws => (c :: w) :: ws

/-- JS `s.split(sep)` for a single-character separator `sep`. -/
def jsSplitOnChar (sep : Char) (s : JStr) : List JStr :=
  splitByPred (fun c => c = sep) s

/-- JS `s.split(...)` on every whitespace character (used only to state
the spec's reading of the keyword strategy, which says the query is split
"on whitespace"; the source splits on `' '`). -/
def splitWhitespace (s : JStr) : List JStr := splitByPred Char.isWhitespace s

/-- JS `String.prototype.includes`: `needle` occurs contiguously in
`hay` (the empty needle occurs in every string). -/
def jsIncludes (hay needle : JStr) : Bool :=
  match hay with
  | [] => needle.isEmpty
  | c :: rest => needle.isPrefixOf (c :: rest) || jsIncludes rest needle

/-- JS `String.prototype.trim`: strip whitespace from both ends. -/
def jsTrim (s : JStr) : JStr :=
  ((s.dropWhile Char.isWhitespace).reverse.dropWhile Char.isWhitespace).reverse

/-- Value of a maximal leading run of decimal digits; `none` when there is
no leading digit. -/
def leadingNat (s : JStr) : Option ℕ :=
  let ds := s.takeWhile Char.isDigit
  if ds.isEmpty then none
  else some (ds.foldl (fun a c => a * 10 + (c.toNat - 48)) 0)

/-- JS `parseInt(s, 10)` on an already-trimmed string: optional sign, then
the longest digit prefix; `none` models `NaN`.  (The code only feeds it
short index tokens, well below the range where `parseInt` loses integer
exactness.) -/
def jsParseInt (s : JStr) : Option ℤ :=
  match s with
  | '-' :: rest => (leadingNat rest).map (fun n => -(n : ℤ))
  | '+' :: rest => (leadingNat rest).map (fun n => (n : ℤ))
  | _ => (leadingNat s).map (fun n => (n : ℤ))

/-- A `Nat` rendered in decimal, for the id strings the code builds with
template literals. -/
def natToJStr (n : ℕ) : JStr := Nat.toDigits 10 n

/-- A normalized listing as produced by the platform Searchers
(`RawListing` in the spec).  Fields that only some producers set are
`Option`s, mirroring absent JS object properties. -/
structure Listing where
  id : JStr
  title : JStr
  price : ℚ
  currency : Option JStr := none
  platform : JStr
  url : JStr
  condition : Option JStr := none
  location : Option JStr := none
  /-- eBay items carry `timestamp: new Date(batchTimestamp).toISOString()`;
  we keep the underlying millisecond count. -/
  timestamp : Option ℕ := none
deriving DecidableEq, Repr

namespace AIService

/-- Model of `Math.ceil(n * 0.5)` for a JS array length `n`: exact, since `n * 0.5`
is computed exactly in binary floating point. -/
def jsCeilHalf (n : ℕ) : ℕ := (n + 1) / 2

/-- Embedding of `AIService.fallbackFilter` (src/services/AIService.js, lines 120-132):
lowercase the query, split it on `' '`, and keep each result whose
lowercased title contains at least `Math.ceil(keywords.length * 0.5)` of
the keywords as substrings. -/
def fallbackFilter (searchQuery : JStr) (results : List Listing) : List Listing :=
  let keywords := jsSplitOnChar ' ' (jsToLower searchQuery)
  results.filter (fun result =>
    let title := jsToLower result.title
    let matchCount := (keywords.filter (fun keyword => jsIncludes title keyword)).length
    decide (matchCount ≥ jsCeilHalf keywords.length))

/-- Embedding of `AIService.parseAIResponse` (lines 102-115): split the AI response on
commas, `parseInt` each trimmed token, keep tokens that are numbers in
`[0, results.length)`, and map the surviving indices to `results[i]` in
the order the tokens appear in the response.  The final
`filterMap`/`bind`/`getElem?` renders `indices.map(i => results[i])`; it
never drops an element because every surviving index is in range. -/
def parseAIResponse (aiResponse : JStr) (results : List Listing) : List Listing :=
  let parsed := (jsSplitOnChar ',' aiResponse).map (fun s => jsParseInt (jsTrim s))
  let indices := parsed.filter (fun o =>
    match o with
    | none => false
    | some n => decide (0 ≤ n) && decide (n < (results.length : ℤ)))
  indices.filterMap (fun o => o.bind (fun n => results[n.toNat]?))

/-- Embedding of `AIService.buildFilterPrompt` (lines 42-62): the static prompt template
around the query and one `idx: title - €price` line per result.  Price
rendering (`priceToJStr`) is a model stand-in for JS number-to-string
conversion; no claim depends on the rendered text. -/
def priceToJStr (q : ℚ) : JStr := (toString q).toList

def buildFilterPrompt (searchQuery : JStr) (results : List Listing) : JStr :=
  let resultsText := List.intercalate ['\n']
    ((List.range results.length).zip results |>.map (fun p =>
      natToJStr p.1 ++ ": ".toList ++ p.2.title ++ " - €".toList ++ priceToJStr p.2.price))
  "You are helping to filter shopping results. The user is searching for: \"".toList
    ++ searchQuery
    ++ "\"\n\nHere are the results to filter:\n".toList
    ++ resultsText
    ++ "\n\nPlease identify which results match the search criteria. Consider:\n- Typos and spelling variations\n- Items that contain more features than requested (acceptable)\n- Items must meet the minimum criteria of the search\n- Price should be reasonable for the item type\n\nReturn only the indices (numbers) of matching results, separated by commas.\nExample: 0,2,5\n\nIndices of matching results:".toList

/-- Embedding of `AIService.filterMatches` (lines 21-37).  `apiKey` is the constructor's
`OPENROUTER_API_KEY` (empty string when unconfigured, and the empty string
is falsy); `aiCall` models `callAI`'s network round-trip including its
response-shape validation, returning `.error` for anything the `catch`
block would see (network error, timeout, invalid response structure). -/
def filterMatches (apiKey : JStr) (aiCall : JStr → Except JStr JStr)
    (searchQuery : JStr) (results : List Listing) : List Listing :=
  if apiKey.isEmpty then fallbackFilter searchQuery results
  else
    match aiCall (buildFilterPrompt searchQuery results) with
    | .ok response => parseAIResponse response results
    | .error _ => fallbackFilter searchQuery results

end AIService

/-- The keyword strategy exactly as the claim words it: split the query on
whitespace into lowercase keywords, count with `countP` how many keywords
are substrings of the lowercased title, keep the listing iff
`matchCount ≥ ceil(keywordCount * 0.5)` with a genuine rational ceiling. -/
def keywordFilterClaim (query : JStr) (listings : List Listing) : List Listing :=
  let keywords := splitWhitespace (jsToLower query)
  listings.filter (fun l =>
    decide (keywords.countP (fun kw => jsIncludes (jsToLower l.title) kw) ≥
      (⌈(keywords.length : ℚ) * (1 / 2)⌉).toNat))

/-- The keyword strategy as the claim words it, amended in one place: the
query is split on the space character `' '` (as the source does), not on
arbitrary whitespace.  Counting and the threshold still follow the spec's
wording (`countP`, rational ceiling). -/
def keywordFilterSpec (query : JStr) (listings : List Listing) : List Listing :=
  let keywords := jsSplitOnChar ' ' (jsToLower query)
  listings.filter (fun l =>
    decide (keywords.countP (fun kw => jsIncludes (jsToLower l.title) kw) ≥
      (⌈(keywords.length : ℚ) * (1 / 2)⌉).toNat))

/-- Kernel-evaluable twin of `keywordFilterClaim` (rational ceiling
replaced by its `Nat`-arithmetic value, see `ceil_half_toNat`). -/
def keywordFilterClaimExec (query : JStr) (listings : List Listing) : List Listing :=
  let keywords := splitWhitespace (jsToLower query)
  listings.filter (fun l =>
    decide (keywords.countP (fun kw => jsIncludes (jsToLower l.title) kw) ≥
      (keywords.length + 1) / 2))

/-- Kernel-evaluable twin of `keywordFilterSpec`. -/
def keywordFilterSpecExec (query : JStr) (listings : List Listing) : List Listing :=
  let keywords := jsSplitOnChar ' ' (jsToLower query)
  listings.filter (fun l =>
    decide (keywords.countP (fun kw => jsIncludes (jsToLower l.title) kw) ≥
      (keywords.length + 1) / 2))

/-- The AI-response mapping exactly as the claim words it: surviving
indices are mapped back to listings "preserving the listings' original
order relative to the input sequence", i.e. output order follows the
input listing order, not the order of indices in the response. -/
def parseAIResponseClaim (aiResponse : JStr) (results : List Listing) : List Listing :=
  let validIdx : List ℤ :=
    ((jsSplitOnChar ',' aiResponse).filterMap (fun s => jsParseInt (jsTrim s))).filter
      (fun n => decide (0 ≤ n) && decide (n < (results.length : ℤ)))
  (results.enum.filter (fun p => decide ((p.1 : ℤ) ∈ validIdx))).map (fun p => p.2)

/-- The AI-response mapping as the claim words it, amended in one place:
surviving indices are mapped to listings in the order the indices appear
in the response.  A token survives iff it `parseInt`s to an integer in
`[0, results.length)`; everything else is silently discarded. -/
def parseAIResponseRespOrder (aiResponse : JStr) (results : List Listing) : List Listing :=
  (jsSplitOnChar ',' aiResponse).filterMap (fun s =>
    (jsParseInt (jsTrim s)).bind (fun n =>
      if 0 ≤ n ∧ n < (results.length : ℤ) then results[n.toNat]? else none))

namespace SearchService

/-- The per-platform enable flags held by `SearchService`. -/
structure PlatformSettings where
  ebayEnabled : Bool
  kleinanzeigenEnabled : Bool
deriving DecidableEq, Repr

/-- Embedding of the `SearchService` constructor (src/services/SearchService.js, lines
128-140): a missing (`undefined`) flag defaults to `true`. -/
def mkPlatformSettings (ebayEnabled kleinanzeigenEnabled : Option Bool) : PlatformSettings :=
  { ebayEnabled := ebayEnabled.getD true
    kleinanzeigenEnabled := kleinanzeigenEnabled.getD true }

/-- Embedding of `SearchService.searchAllPlatforms` (lines 153-177): call each enabled
platform's `search` inside its own try/catch; a platform that throws
contributes nothing (its error is only logged); results are concatenated
eBay-first.  Searchers are passed as `Except`-valued functions of the
query and price cap; the function is total, so no exception ever
propagates to the caller. -/
def searchAllPlatforms (settings : PlatformSettings)
    (ebaySearchFn kleinanzeigenSearchFn : JStr → Option ℚ → Except JStr (List Listing))
    (query : JStr) (maxPrice : Option ℚ) : List Listing :=
  let ebayResults :=
    if settings.ebayEnabled then
      match ebaySearchFn query maxPrice with
      | .ok rs => rs
      | .error _ => []
    else []
  let kleinanzeigenResults :=
    if settings.kleinanzeigenEnabled then
      match kleinanzeigenSearchFn query maxPrice with
      | .ok rs => rs
      | .error _ => []
    else []
  ebayResults ++ kleinanzeigenResults

/-- Truthiness of the JS `maxPrice` argument (`null`/missing and `0` are
falsy). -/
def maxPriceTruthy (maxPrice : Option ℚ) : Bool :=
  match maxPrice with
  | none => false
  | some p => decide (p ≠ 0)

/-- The mock-item filter `item => !maxPrice || item.price <= maxPrice`
shared by the mock searchers. -/
def jsMaxPriceKeep (maxPrice : Option ℚ) (price : ℚ) : Bool :=
  !maxPriceTruthy maxPrice || decide (price ≤ maxPrice.getD 0)

/-- The constant `PLATFORMS.KLEINANZEIGEN` from src/constants/index.js. -/
def kleinanzeigenPlatform : JStr := "Kleinanzeigen".toList

/-- The constant `PLATFORMS.EBAY` from src/constants/index.js. -/
def ebayPlatform : JStr := "eBay".toList

/-- The composite mock id
`` `${platform}-${timestamp}-${idx}-${Math.random()...}` ``. -/
def mkMockId (platform : JStr) (timestamp : ℕ) (idx : ℕ) (rnd : JStr) : JStr :=
  platform ++ ('-' :: natToJStr timestamp) ++ ('-' :: natToJStr idx) ++ ('-' :: rnd)

/-- The hard-coded Kleinanzeigen mock items (lines 351-355). -/
def kleinanzeigenMockItems (query : JStr) : List (JStr × ℚ) :=
  [ (query ++ " neuwertig".toList, 120),
    (query ++ " günstig abzugeben".toList, 90),
    ("Verkaufe ".toList ++ query, 140) ]

/-- Embedding of `KleinanzeigenSearcher.getMockResults` (lines 349-367): filter the mock
items by the price cap, then map each to a `Listing` with a composite id.
`timestamp` models `Date.now()` and `rand idx` the per-item
`Math.random().toString(36).slice(2, 11)` suffix. -/
def kleinanzeigenGetMockResults (query : JStr) (maxPrice : Option ℚ)
    (timestamp : ℕ) (rand : ℕ → JStr) : List Listing :=
  ((kleinanzeigenMockItems query).filter (fun item => jsMaxPriceKeep maxPrice item.2)).mapIdx
    (fun idx item =>
      { id := mkMockId kleinanzeigenPlatform timestamp idx (rand idx)
        title := item.1
        price := item.2
        platform := kleinanzeigenPlatform
        url := "https://www.kleinanzeigen.de/s-anzeige/mock".toList
          ++ natToJStr timestamp ++ natToJStr idx })

/-- A parameter value in the eBay Finding API request (either a string
literal or the numeric `maxPrice.toString()`). -/
inductive ParamValue where
  | str (v : JStr)
  | num (v : ℚ)
deriving DecidableEq, Repr

/-- The query parameters `EbaySearcher.searchWithAPI` builds (lines
249-266): the base parameters, plus the `MaxPrice` item filter when
`maxPrice` is truthy. -/
def ebayRequestParams (apiKey : JStr) (query : JStr) (maxPrice : Option ℚ) :
    List (JStr × ParamValue) :=
  [ ("OPERATION-NAME".toList, .str "findItemsByKeywords".toList),
    ("SERVICE-VERSION".toList, .str "1.0.0".toList),
    ("SECURITY-APPNAME".toList, .str apiKey),
    ("RESPONSE-DATA-FORMAT".toList, .str "JSON".toList),
    ("keywords".toList, .str query),
    ("paginationInput.entriesPerPage".toList, .str "20".toList),
    ("sortOrder".toList, .str "StartTimeNewest".toList),
    ("GLOBAL-ID".toList, .str "EBAY-DE".toList) ]
  ++ (if maxPriceTruthy maxPrice then
        [ ("itemFilter(0).name".toList, .str "MaxPrice".toList),
          ("itemFilter(0).value".toList, .num (maxPrice.getD 0)),
          ("itemFilter(0).paramName".toList, .str "Currency".toList),
          ("itemFilter(0).paramValue".toList, .str "EUR".toList) ]
      else [])

/-- The `item.sellingStatus?.[0]?.currentPrice?.[0]` part of a parsed eBay response
item: the numeric value denoted by `__value__` (already taken through
`parseFloat`) and the `@currencyId` attribute. -/
structure EbayPriceInfo where
  value : Option ℚ
  currencyId : Option JStr
deriving DecidableEq, Repr

/-- One item of the parsed eBay Finding API JSON, with each optional-chain
access collapsed to an `Option` field. -/
structure EbayItem where
  itemId : Option JStr
  title : Option JStr
  currentPrice : Option EbayPriceInfo
  viewItemURL : Option JStr
  conditionDisplayName : Option JStr
  location : Option JStr
deriving DecidableEq, Repr

/-- The chain `data.findItemsByKeywordsResponse?.[0]?.searchResult?.[0]` collapsed:
`item` is the (possibly missing) item array. -/
structure EbaySearchResult where
  item : Option (List EbayItem)
deriving DecidableEq, Repr

/-- The price the parser extracts:
`parseFloat(item.sellingStatus?.[0]?.currentPrice?.[0]?.__value__ || 0)`. -/
def ebayItemPrice (it : EbayItem) : ℚ :=
  ((it.currentPrice.bind (fun p => p.value)).getD 0)

/-- Embedding of `EbaySearcher.parseAPIResponse` (lines 284-329): missing search result
or missing item array yields `[]` (as does the enclosing catch, which the
`Option`-typed input makes unreachable); otherwise each item is mapped to
a `Listing` with per-field defaults.  `batchTimestamp` models the single
`Date.now()` of the batch and `rand i` the per-item `Math.random()`
suffix. -/
def parseAPIResponse (searchResult : Option EbaySearchResult)
    (batchTimestamp : ℕ) (rand : ℕ → JStr) : List Listing :=
  match searchResult with
  | none => []
  | some sr =>
    match sr.item with
    | none => []
    | some items =>
      items.mapIdx (fun i it =>
        let itemId := it.itemId.getD []
        { id := ebayPlatform ++ ('-' :: itemId) ++ ('-' :: rand i)
          title := it.title.getD "No title".toList
          price := ebayItemPrice it
          currency := some ((it.currentPrice.bind (fun p => p.currencyId)).getD "EUR".toList)
          platform := ebayPlatform
          url := it.viewItemURL.getD ("https://www.ebay.de/itm/".toList ++ itemId)
          condition := some (it.conditionDisplayName.getD [])
          location := some (it.location.getD [])
          timestamp := some batchTimestamp })

/-- Embedding of `EbaySearcher.search` (lines 192-239): serve from the cache when
possible; with no API key configured return `[]`; with the rate limit
exhausted return `[]`; otherwise return the API result, or `[]` when the
call throws.  `cache` models the module-level `searchCache` lookup at the
key built from the query and price cap; `api` models `searchWithAPI`. -/
def ebaySearch (apiKey : JStr) (cache : JStr × Option ℚ → Option (List Listing))
    (limitCanProceed : Bool) (api : JStr → Option ℚ → Except JStr (List Listing))
    (query : JStr) (maxPrice : Option ℚ) : List Listing :=
  match cache (query, maxPrice) with
  | some cached => cached
  | none =>
    if apiKey.isEmpty then []
    else if !limitCanProceed then []
    else
      match api query maxPrice with
      | .ok results => results
      | .error _ => []

end SearchService

namespace App

/-- A match record as persisted under the `matches` key.  An `isRead`
field may be absent in records written before the read/unread feature
(`none`). -/
structure StoredMatch where
  id : JStr
  title : JStr
  price : ℚ
  platform : JStr
  url : JStr
  foundAt : Option JStr
  isRead : Option Bool
deriving DecidableEq, Repr

/-- An in-memory match after loading: `isRead` is always present. -/
structure Match where
  id : JStr
  title : JStr
  price : ℚ
  platform : JStr
  url : JStr
  foundAt : Option JStr
  isRead : Bool
deriving DecidableEq, Repr

/-- The per-record migration in `loadMatches`:
`{ ...m, isRead: m.isRead !== undefined ? m.isRead : false }`. -/
def migrateMatch (m : StoredMatch) : Match :=
  { id := m.id
    title := m.title
    price := m.price
    platform := m.platform
    url := m.url
    foundAt := m.foundAt
    isRead := match m.isRead with
      | some b => b
      | none => false }

/-- Embedding of `App.loadMatches` (the main component loader with migration): when
the storage key is absent the state keeps its previous value (initially
`[]`); otherwise every parsed record is migrated.  A storage/parse error
is caught and likewise leaves the previous state; the `Option` input
models a successfully read (or absent) value. -/
def loadMatches (prevMatches : List Match) (savedMatches : Option (List StoredMatch)) :
    List Match :=
  match savedMatches with
  | none => prevMatches
  | some ms => ms.map migrateMatch

end App

/-- A concrete listing with the fields the filter logic reads, for the
concrete-scenario theorems and witnesses. -/
def sampleListing (idc : Char) (title : JStr) (price : ℚ) : Listing :=
  { id := [idc], title := title, price := price, platform := "eBay".toList
    url := "https://example.invalid".toList }

/-! ## Helper lemmas -/

/-- The exact rational ceiling `⌈n/2⌉` agrees with the integer-arithmetic
rendering `(n+1)/2` of `Math.ceil(n * 0.5)`. -/
lemma ceil_half_toNat (n : ℕ) : (⌈(n : ℚ) * (1 / 2)⌉).toNat = (n + 1) / 2 := by
  rcases Nat.even_or_odd n with ⟨k, hk⟩ | ⟨k, hk⟩ <;> subst hk
  · have h1 : ((k + k : ℕ) : ℚ) * (1 / 2) = ((k : ℤ) : ℚ) := by push_cast; ring
    rw [h1, Int.ceil_intCast]
    omega
  · have h1 : ((2 * k + 1 : ℕ) : ℚ) * (1 / 2) = (1 / 2 : ℚ) + ((k : ℤ) : ℚ) := by
      push_cast; ring
    have h2 : (⌈(1 / 2 : ℚ)⌉ : ℤ) = 1 := by
      rw [Int.ceil_eq_iff]
      norm_num
    rw [h1, Int.ceil_add_int, h2]
    omega

lemma keywordFilterClaim_eq_exec (query : JStr) (listings : List Listing) :
    keywordFilterClaim query listings = keywordFilterClaimExec query listings := by
  unfold keywordFilterClaim keywordFilterClaimExec
  simp only [ceil_half_toNat]

lemma keywordFilterSpec_eq_exec (query : JStr) (listings : List Listing) :
    keywordFilterSpec query listings = keywordFilterSpecExec query listings := by
  unfold keywordFilterSpec keywordFilterSpecExec
  simp only [ceil_half_toNat]

/-- The empty string occurs in every string. -/
lemma jsIncludes_nil (t : JStr) : jsIncludes t [] = true := by
  cases t <;> rfl

/-- Splitting a string all of whose characters are separators yields one
empty field per gap, i.e. `length + 1` empty fields. -/
lemma splitByPred_all_sep (p : Char → Bool) (s : JStr) (h : ∀ c ∈ s, p c = true) :
    splitByPred p s = List.replicate (s.length + 1) [] := by
  induction s with
  | nil => rfl
  | cons c rest ih =>
    have hc : p c = true := h c (List.mem_cons_self c rest)
    have hrest : ∀ x ∈ rest, p x = true := fun x hx => h x (List.mem_cons_of_mem c hx)
    simp [splitByPred, hc, ih hrest, List.replicate_succ]

/-- Membership in `mapIdx`: every element is the image of some index and
list element. -/
lemma mem_mapIdx_elim {α β : Type} (f : ℕ → α → β) (l : List α) (b : β)
    (h : b ∈ l.mapIdx f) : ∃ i a, a ∈ l ∧ b = f i a := by
  rw [List.mapIdx_eq_enum_map] at h
  obtain ⟨⟨i, a⟩, hmem, hb⟩ := List.mem_map.mp h
  exact ⟨i, a, List.snd_mem_of_mem_enum hmem, hb.symm⟩

/-! ## Claim theorems -/

/-- C1 (counterexample): the keyword strategy does NOT split the query on
arbitrary whitespace.  For the query `"iPhone\t13"` (a tab between the
words) the code treats the whole query as one keyword and drops a listing
titled `"iPhone 13 Pro Max"`, while the claimed whitespace-splitting
strategy keeps it. -/
theorem C1_counterexample :
    AIService.fallbackFilter "iPhone\t13".toList
        [sampleListing '1' "iPhone 13 Pro Max".toList 500] ≠
      keywordFilterClaim "iPhone\t13".toList
        [sampleListing '1' "iPhone 13 Pro Max".toList 500] := by
  rw [keywordFilterClaim_eq_exec]
  decide

/-- C1 (amended): the keyword strategy splits the query on the space
character `' '` (not on arbitrary whitespace), lowercases query and
titles, counts keywords occurring as substrings of the title and keeps a
listing iff `matchCount ≥ ceil(keywordCount * 0.5)`; and on the concrete
scenario (query `"iPhone 13"`) exactly the 1st and 3rd listings are
kept. -/
theorem C1_keyword_strategy_amended :
    (∀ (q : JStr) (L : List Listing),
      AIService.fallbackFilter q L = keywordFilterSpec q L) ∧
    AIService.fallbackFilter "iPhone 13".toList
        [sampleListing '1' "iPhone 13 Pro Max".toList 500,
         sampleListing '2' "Samsung Galaxy".toList 400,
         sampleListing '3' "iPhone 13 good condition".toList 350,
         sampleListing '4' "Laptop".toList 600] =
      [sampleListing '1' "iPhone 13 Pro Max".toList 500,
       sampleListing '3' "iPhone 13 good condition".toList 350] := by
  constructor
  · intro q L
    rw [keywordFilterSpec_eq_exec]
    unfold AIService.fallbackFilter keywordFilterSpecExec AIService.jsCeilHalf
    simp only [List.countP_eq_length_filter]
  · decide

/-- C8: the keyword filter never invents or modifies listings: its output
is a sublist of the input, and in particular every returned listing is an
element of the input. -/
theorem C8_keyword_filter_subset :
    ∀ (q : JStr) (L : List Listing),
      (AIService.fallbackFilter q L).Sublist L ∧
      ∀ x, x ∈ AIService.fallbackFilter q L → x ∈ L := by
  intro q L
  have hsub : (AIService.fallbackFilter q L).Sublist L := by
    unfold AIService.fallbackFilter
    exact List.filter_sublist L
  exact ⟨hsub, fun x hx => hsub.subset hx⟩

/-- C8 witness: on the concrete scenario, the returned listing titled
`"iPhone 13 Pro Max"` is indeed an element of the input list. -/
theorem C8_keyword_filter_subset_witness :
    sampleListing '1' "iPhone 13 Pro Max".toList 500 ∈
      [sampleListing '1' "iPhone 13 Pro Max".toList 500,
       sampleListing '2' "Samsung Galaxy".toList 400] :=
  (C8_keyword_filter_subset "iPhone 13".toList
      [sampleListing '1' "iPhone 13 Pro Max".toList 500,
       sampleListing '2' "Samsung Galaxy".toList 400]).2
    (sampleListing '1' "iPhone 13 Pro Max".toList 500) (by decide)

/-- C10 (counterexample): a query consisting only of whitespace does NOT
always make the keyword strategy return all listings.  The tab-only query
`"\t"` is whitespace-only, yet the strategy drops a listing titled
`"abc"`: `split(' ')` leaves the tab as a single nonempty keyword, which
is not a substring of the title. -/
theorem C10_counterexample :
    (∀ c ∈ ("\t".toList : JStr), c.isWhitespace = true) ∧
    AIService.fallbackFilter "\t".toList [sampleListing '1' "abc".toList 10] ≠
      [sampleListing '1' "abc".toList 10] := by
  constructor
  · decide
  · decide

/-- C10 (amended): for a query consisting only of space characters
(including the empty query), the keyword strategy returns all listings:
`split(' ')` yields only empty-string keywords, every title contains the
empty string, so every listing's match count equals the keyword count and
passes the `ceil(keywordCount * 0.5)` threshold. -/
theorem C10_space_query_keeps_all :
    ∀ (q : JStr) (L : List Listing), (∀ c ∈ q, c = ' ') →
      AIService.fallbackFilter q L = L := by
  intro q L h
  have hlow : jsToLower q = q := by
    unfold jsToLower
    have : q.map Char.toLower = q.map id :=
      List.map_congr_left (fun c hc => by rw [h c hc]; rfl)
    simpa using this
  have hsplit : jsSplitOnChar ' ' q = List.replicate (q.length + 1) [] := by
    unfold jsSplitOnChar
    exact splitByPred_all_sep _ _ (fun c hc => by rw [h c hc]; simp)
  unfold AIService.fallbackFilter
  rw [hlow, hsplit]
  apply List.filter_eq_self.mpr
  intro l _
  have hfilter :
      (List.replicate (q.length + 1) ([] : JStr)).filter
        (fun kw => jsIncludes (jsToLower l.title) kw) =
      List.replicate (q.length + 1) [] :=
    List.filter_eq_self.mpr (fun a ha => by
      rw [List.eq_of_mem_replicate ha]
      exact jsIncludes_nil _)
  simp only [hfilter, List.length_replicate, decide_eq_true_eq, AIService.jsCeilHalf]
  omega

/-- C10 witness: the two-space query keeps the whole concrete listing
list. -/
theorem C10_space_query_keeps_all_witness :
    AIService.fallbackFilter "  ".toList
        [sampleListing '1' "abc".toList 10, sampleListing '2' "xyz".toList 20] =
      [sampleListing '1' "abc".toList 10, sampleListing '2' "xyz".toList 20] :=
  C10_space_query_keeps_all "  ".toList
    [sampleListing '1' "abc".toList 10, sampleListing '2' "xyz".toList 20]
    (by decide)

/-- C2 (counterexample): the parser does NOT map surviving indices back to
listings in the listings' original order: for the response `"1,0"` over
two listings it returns them in response order `[B, A]`, not input order
`[A, B]`. -/
theorem C2_counterexample :
    AIService.parseAIResponse "1,0".toList
        [sampleListing 'a' "A".toList 1, sampleListing 'b' "B".toList 2] ≠
      parseAIResponseClaim "1,0".toList
        [sampleListing 'a' "A".toList 1, sampleListing 'b' "B".toList 2] := by
  decide

/-- C2 (amended): a token is a valid index iff it `parseInt`s to an
integer in `[0, listings.length)`; out-of-range or non-numeric tokens are
discarded rather than failing the whole call; surviving indices are
mapped back to listings in the order the indices appear in the AI
response (not in the listings' input order). -/
theorem C2_parse_ai_response_amended :
    ∀ (resp : JStr) (L : List Listing),
      AIService.parseAIResponse resp L = parseAIResponseRespOrder resp L := by
  intro resp L
  simp only [AIService.parseAIResponse, parseAIResponseRespOrder]
  generalize jsSplitOnChar ',' resp = toks
  induction toks with
  | nil => rfl
  | cons s toks ih =>
    cases hp : jsParseInt (jsTrim s) with
    | none =>
      simp only [List.map_cons, List.filter_cons, hp, List.filterMap_cons, Option.none_bind]
      simpa using ih
    | some n =>
      by_cases h0 : 0 ≤ n ∧ n < (L.length : ℤ)
      · obtain ⟨h1, h2⟩ := h0
        have hlt : n.toNat < L.length := by omega
        simp [List.filter_cons, hp, h1, h2, List.filterMap_cons,
          List.getElem?_eq_getElem hlt, ih]
      · have hb : (decide (0 ≤ n) && decide (n < (L.length : ℤ))) = false := by
          rcases not_and_or.mp h0 with h | h <;> simp [h]
        simp [List.filter_cons, hp, hb, List.filterMap_cons, h0, ih]

/-- C3: with both platforms enabled (the constructor default), if one
platform's Searcher throws and the other succeeds, `searchAllPlatforms`
returns exactly the successful platform's listings; being a total
function, it propagates no exception to its caller. -/
theorem C3_partial_failure_tolerated :
    ∀ (query : JStr) (maxPrice : Option ℚ)
      (eb kl : JStr → Option ℚ → Except JStr (List Listing)) (e : JStr)
      (L : List Listing),
      (eb query maxPrice = .error e → kl query maxPrice = .ok L →
        SearchService.searchAllPlatforms (SearchService.mkPlatformSettings none none)
          eb kl query maxPrice = L) ∧
      (kl query maxPrice = .error e → eb query maxPrice = .ok L →
        SearchService.searchAllPlatforms (SearchService.mkPlatformSettings none none)
          eb kl query maxPrice = L) := by
  intro query maxPrice eb kl e L
  constructor <;> intro h1 h2 <;>
    simp [SearchService.searchAllPlatforms, SearchService.mkPlatformSettings, h1, h2]

/-- C3 witness: a concrete aggregation in which eBay throws and
Kleinanzeigen succeeds returns exactly the Kleinanzeigen listings. -/
theorem C3_partial_failure_tolerated_witness :
    SearchService.searchAllPlatforms (SearchService.mkPlatformSettings none none)
        (fun _ _ => .error "network down".toList)
        (fun _ _ => .ok [sampleListing '1' "iPhone".toList 100])
        "iPhone".toList none =
      [sampleListing '1' "iPhone".toList 100] :=
  (C3_partial_failure_tolerated "iPhone".toList none
      (fun _ _ => .error "network down".toList)
      (fun _ _ => .ok [sampleListing '1' "iPhone".toList 100])
      "network down".toList
      [sampleListing '1' "iPhone".toList 100]).1 rfl rfl

/-- C7: with zero platforms enabled, `searchAllPlatforms` returns the
empty list for every query and price cap, and does so uniformly in the
Searcher functions — no Searcher is invoked, so even an always-throwing
Searcher cannot influence the result. -/
theorem C7_zero_platforms_empty :
    ∀ (eb kl : JStr → Option ℚ → Except JStr (List Listing))
      (query : JStr) (maxPrice : Option ℚ),
      SearchService.searchAllPlatforms
        (SearchService.mkPlatformSettings (some false) (some false))
        eb kl query maxPrice = [] := by
  intro eb kl query maxPrice
  rfl

/-- C4: with a positive price cap `p` set, price filtering holds at each
Searcher: the Kleinanzeigen mock Searcher (client-side post-fetch filter)
only returns listings with `price ≤ p`; the eBay Searcher filters at the
source-request level — its request carries the `MaxPrice`/`p` item filter
— and its response parsing preserves item prices, so whenever the
upstream API honours the filter every parsed listing satisfies
`price ≤ p`. -/
theorem C4_price_cap_respected :
    ∀ (query apiKey : JStr) (p : ℚ) (ts bts : ℕ) (rand rand2 : ℕ → JStr)
      (items : List SearchService.EbayItem),
      0 < p →
      ((∀ l ∈ SearchService.kleinanzeigenGetMockResults query (some p) ts rand,
          l.price ≤ p) ∧
       ("itemFilter(0).name".toList, SearchService.ParamValue.str "MaxPrice".toList) ∈
          SearchService.ebayRequestParams apiKey query (some p) ∧
       ("itemFilter(0).value".toList, SearchService.ParamValue.num p) ∈
          SearchService.ebayRequestParams apiKey query (some p) ∧
       ((∀ it ∈ items, SearchService.ebayItemPrice it ≤ p) →
         ∀ l ∈ SearchService.parseAPIResponse (some ⟨some items⟩) bts rand2,
           l.price ≤ p)) := by
  intro query apiKey p ts bts rand rand2 items hp
  have hpne : p ≠ 0 := ne_of_gt hp
  refine ⟨?_, ?_, ?_, ?_⟩
  · intro l hl
    unfold SearchService.kleinanzeigenGetMockResults at hl
    obtain ⟨i, item, hitem, rfl⟩ := mem_mapIdx_elim _ _ _ hl
    have hkeep := (List.mem_filter.mp hitem).2
    simp [SearchService.jsMaxPriceKeep, SearchService.maxPriceTruthy, hpne] at hkeep
    exact hkeep
  · simp [SearchService.ebayRequestParams, SearchService.maxPriceTruthy, hpne]
  · simp [SearchService.ebayRequestParams, SearchService.maxPriceTruthy, hpne]
  · intro hub l hl
    unfold SearchService.parseAPIResponse at hl
    obtain ⟨i, it, hit, rfl⟩ := mem_mapIdx_elim _ _ _ hl
    exact hub it hit

/-- C4 witness: with cap 100 the Kleinanzeigen mock Searcher returns the
single 90-euro listing, whose price is within the cap. -/
theorem C4_price_cap_respected_witness :
    ({ id := SearchService.mkMockId SearchService.kleinanzeigenPlatform 7 0 ['r']
       title := "iPhone günstig abzugeben".toList
       price := 90
       platform := SearchService.kleinanzeigenPlatform
       url := "https://www.kleinanzeigen.de/s-anzeige/mock".toList ++ ['7'] ++ ['0'] } :
      Listing).price ≤ 100 :=
  ((C4_price_cap_respected "iPhone".toList ['k'] 100 7 0 (fun _ => ['r']) (fun _ => ['r'])
      [] (by decide)).1) _ (by decide)

/-- C6: with no eBay API key configured (the constructor's empty-string
default) and hence nothing ever written to the search cache, the eBay
Searcher returns the empty list for every query, price cap, rate-limit
state and upstream behaviour — no fabricated data. -/
theorem C6_no_credential_empty :
    ∀ (limitCanProceed : Bool) (api : JStr → Option ℚ → Except JStr (List Listing))
      (query : JStr) (maxPrice : Option ℚ),
      SearchService.ebaySearch [] (fun _ => none) limitCanProceed api query maxPrice = [] := by
  intro limitCanProceed api query maxPrice
  rfl

/-- C5: the Relevance Filter never raises: with no API key configured
(empty string) `filterMatches` returns exactly the keyword strategy's
result, and whenever the AI call fails (network error, timeout, malformed
response — all surfaced as `.error`) it likewise returns the keyword
strategy's result. -/
theorem C5_filter_falls_back :
    ∀ (aiCall : JStr → Except JStr JStr) (apiKey searchQuery : JStr)
      (results : List Listing) (e : JStr),
      (AIService.filterMatches [] aiCall searchQuery results =
        AIService.fallbackFilter searchQuery results) ∧
      (aiCall (AIService.buildFilterPrompt searchQuery results) = .error e →
        AIService.filterMatches apiKey aiCall searchQuery results =
          AIService.fallbackFilter searchQuery results) := by
  intro aiCall apiKey searchQuery results e
  constructor
  · rfl
  · intro h
    unfold AIService.filterMatches
    split
    · rfl
    · rw [h]

/-- C5 witness: a failing AI call with a configured key falls back to the
keyword filter on a concrete input. -/
theorem C5_filter_falls_back_witness :
    AIService.filterMatches ['k'] (fun _ => .error ['x']) "iPhone".toList
        [sampleListing '1' "iPhone".toList 100] =
      AIService.fallbackFilter "iPhone".toList [sampleListing '1' "iPhone".toList 100] :=
  (C5_filter_falls_back (fun _ => .error ['x']) ['k'] "iPhone".toList
      [sampleListing '1' "iPhone".toList 100] ['x']).2 rfl

/-- C9: loading a persisted collection in which a record lacks the
`isRead` field succeeds (the loader is total) and yields that match with
`isRead = false`. -/
theorem C9_isRead_migration :
    ∀ (prev : List App.Match) (ms : List App.StoredMatch) (m : App.StoredMatch),
      m ∈ ms → m.isRead = none →
      App.migrateMatch m ∈ App.loadMatches prev (some ms) ∧
      (App.migrateMatch m).isRead = false := by
  intro prev ms m hm hnone
  constructor
  · simp only [App.loadMatches]
    exact List.mem_map_of_mem App.migrateMatch hm
  · simp [App.migrateMatch, hnone]

/-- C9 witness: a concrete stored match without `isRead` loads with
`isRead = false`. -/
theorem C9_isRead_migration_witness :
    App.migrateMatch
        { id := ['1'], title := "iPhone 12".toList, price := 450,
          platform := "eBay".toList, url := ['u'], foundAt := none, isRead := none } ∈
      App.loadMatches []
        (some [{ id := ['1'], title := "iPhone 12".toList, price := 450,
                 platform := "eBay".toList, url := ['u'], foundAt := none, isRead := none }]) ∧
    (App.migrateMatch
        { id := ['1'], title := "iPhone 12".toList, price := 450,
          platform := "eBay".toList, url := ['u'], foundAt := none, isRead := none }).isRead = false :=
  C9_isRead_migration []
    [{ id := ['1'], title := "iPhone 12".toList, price := 450,
       platform := "eBay".toList, url := ['u'], foundAt := none, isRead := none }]
    { id := ['1'], title := "iPhone 12".toList, price := 450,
      platform := "eBay".toList, url := ['u'], foundAt := none, isRead := none }
    (by decide) rfl
